import Mathlib

/-!
Verification of the Response Interpreter and Model Gateway wrapper of
`Gemini_VLM_Client.py` (class `GeminiVLMClient`).

Python strings are modelled as lists of Unicode code points (`List Char`),
matching Python's `len`, slicing and `in` semantics on `str`.
-/

namespace Osiris

/-- A Python string: a sequence of Unicode code points. -/
abbrev PyStr := List Char

/-- Code points of a Lean string literal, used to write concrete Python strings. -/
def pys (s : String) : PyStr := s.data

/-- Python `w in s` on strings: contiguous substring containment
(`w` is a prefix of some suffix of `s`). -/
def pyIn (w s : PyStr) : Bool :=
  match s with
  | [] => List.isPrefixOf w ([] : PyStr)
  | _ :: rest => List.isPrefixOf w s || pyIn w rest

/-- Python whitespace test used by `str.strip()` (ASCII whitespace class;
the claims never involve non-ASCII whitespace). -/
def pySpace (c : Char) : Bool :=
  c == ' ' || c == '\t' || c == '\n' || c == '\r' || c == '\x0b' || c == '\x0c'

/-- Python `s.strip()`: drop leading and trailing whitespace. -/
def pyStrip (s : PyStr) : PyStr :=
  ((s.dropWhile pySpace).reverse.dropWhile pySpace).reverse

/-- Python `s.split('\n')`: split on newline, keeping empty pieces
(so `"".split('\n') == [""]`). -/
def splitLines : PyStr → List PyStr
  | [] => [[]]
  | c :: rest =>
    let r := splitLines rest
    if c = '\n' then [] :: r
    else
      match r with
      | [] => [[c]]
      | l :: ls => (c :: l) :: ls

/-- The list-marker prefixes tested in line 55 of the source:
`['1.', '2.', '3.', '-', '•']`. -/
def markers : List PyStr := [pys "1.", pys "2.", pys "3.", pys "-", pys "•"]

/-- The character set of `line.lstrip('123456789.-• ')` in line 56. -/
def stripSet : PyStr := pys "123456789.-• "

/-- Line 56 of the source: `line.lstrip('123456789.-• ').strip()`. -/
def cleanRec (line : PyStr) : PyStr :=
  pyStrip (line.dropWhile (fun c => stripSet.contains c))

/-- The healthy keyword list of line 45: `["健康", "正常", "良好"]`. -/
def healthyWords : List PyStr := [pys "健康", pys "正常", pys "良好"]

/-- The problem keyword list of line 47: `["病", "蟲害", "問題"]`. -/
def problemWords : List PyStr := [pys "病", pys "蟲害", pys "問題"]

/-- Lines 44–48 of the source: keyword classification of the diagnosis. -/
def diagnosisOf (response : PyStr) : PyStr :=
  if healthyWords.any (fun w => pyIn w response) then pys "作物健康狀況良好"
  else if problemWords.any (fun w => pyIn w response) then pys "發現問題 - 請查看建議"
  else pys "分析完成"

/-- Lines 51–58: the per-line candidate test and cleaning inside the loop.
Returns the cleaned recommendation when the trimmed line starts with one of
the markers and the cleaned text is longer than 5 characters. -/
def lineCandidate (rawLine : PyStr) : Option PyStr :=
  let line := pyStrip rawLine
  if markers.any (fun p => List.isPrefixOf p line) then
    let c := cleanRec line
    if 5 < c.length then some c else none
  else none

/-- Lines 51–58: recommendations extracted from the raw response, in source order. -/
def extractRecs (response : PyStr) : List PyStr :=
  (splitLines response).filterMap lineCandidate

/-- Lines 61–65: the fixed fallback recommendation list. -/
def fallbackRecs : List PyStr :=
  [pys "定期監察植物健康狀況", pys "確保適當的澆水時間表", pys "檢查害蟲活動"]

/-- The dictionary returned by `_parse_response` (lines 67–75). -/
structure DiagnosisRecord where
  diagnosis : PyStr
  confidence : ℚ
  recommendations : List PyStr
  raw_response : PyStr
  query : PyStr
  language : PyStr
  model : PyStr
  deriving Repr, DecidableEq

/-- `GeminiVLMClient._parse_response` (lines 41–75). -/
def parseResponse (response query language : PyStr) : DiagnosisRecord :=
  let recs0 := extractRecs response
  let recs := if recs0.isEmpty then fallbackRecs else recs0
  { diagnosis := diagnosisOf response
    confidence := 85 / 100
    recommendations := recs.take 5
    raw_response := response
    query := query
    language := pys "zh"
    model := pys "gemini-1.5-pro-vision" }

/-- Outcome of the fallible body of `analyze_crop_image` up to obtaining the
model's text: either an exception message (unreadable image, remote API
error, …) or the raw response text. -/
abbrev GatewayOutcome := Except PyStr PyStr

/-- `GeminiVLMClient.analyze_crop_image` (lines 15–39), with the external
image-loading and API call abstracted into the `outcome` argument: the
`try` block parses the response on success, the `except` block converts any
exception into `(None, "Gemini分析失敗: " + str(e))`. -/
def analyzeCropImage (outcome : GatewayOutcome) (query language : PyStr) :
    Option DiagnosisRecord × PyStr :=
  match outcome with
  | .error e => (none, pys "Gemini分析失敗: " ++ e)
  | .ok resp => (some (parseResponse resp query language), pys "分析成功")

/-- C1: healthy keywords (健康, 正常, 良好) are checked before problem keywords
(病, 蟲害, 問題): any response containing a healthy keyword as a substring is
diagnosed healthy, even if it also contains a problem keyword; a response with
a problem keyword and no healthy keyword is diagnosed problem-detected; one
with neither gets the generic placeholder 分析完成. -/
theorem c1_keyword_precedence (resp q lang : PyStr) :
    (healthyWords.any (fun w => pyIn w resp) = true →
      (parseResponse resp q lang).diagnosis = pys "作物健康狀況良好") ∧
    (healthyWords.any (fun w => pyIn w resp) = false →
      problemWords.any (fun w => pyIn w resp) = true →
      (parseResponse resp q lang).diagnosis = pys "發現問題 - 請查看建議") ∧
    (healthyWords.any (fun w => pyIn w resp) = false →
      problemWords.any (fun w => pyIn w resp) = false →
      (parseResponse resp q lang).diagnosis = pys "分析完成") := by
  refine ⟨fun h => ?_, fun h1 h2 => ?_, fun h1 h2 => ?_⟩ <;>
    simp [parseResponse, diagnosisOf, *]

/-- Witness for C1: the text 有病但健康 contains both the healthy keyword 健康
and the problem keyword 病 and is diagnosed healthy; 發現病徵 contains only a
problem keyword; abc contains neither. -/
theorem c1_keyword_precedence_witness :
    (parseResponse (pys "有病但健康") [] []).diagnosis = pys "作物健康狀況良好" ∧
    (parseResponse (pys "發現病徵") [] []).diagnosis = pys "發現問題 - 請查看建議" ∧
    (parseResponse (pys "abc") [] []).diagnosis = pys "分析完成" :=
  ⟨(c1_keyword_precedence (pys "有病但健康") [] []).1 (by decide),
   (c1_keyword_precedence (pys "發現病徵") [] []).2.1 (by decide) (by decide),
   (c1_keyword_precedence (pys "abc") [] []).2.2 (by decide) (by decide)⟩

/-- C2: for every raw response, query and language, the recommendations list of
the returned record has at most 5 elements (it is truncated with `[:5]`). -/
theorem c2_recommendations_at_most_five (resp q lang : PyStr) :
    (parseResponse resp q lang).recommendations.length ≤ 5 := by
  simp only [parseResponse, List.length_take]
  exact min_le_left _ _

/-- C3: if zero candidate lines survive extraction, the recommendations are
exactly the fixed 3-item fallback list; consequently the recommendations of
any record are never empty. -/
theorem c3_fallback_list (resp q lang : PyStr) :
    (extractRecs resp = [] →
      (parseResponse resp q lang).recommendations = fallbackRecs) ∧
    (parseResponse resp q lang).recommendations ≠ [] := by
  constructor
  · intro h
    simp [parseResponse, h]
    decide
  · simp only [parseResponse]
    rcases hE : extractRecs resp with _ | ⟨a, t⟩
    · simp
      decide
    · simp

/-- Witness for C3: the marker-free text 一般文字 yields zero candidates, so its
record carries the fallback list, which is nonempty. -/
theorem c3_fallback_list_witness :
    (parseResponse (pys "一般文字") [] []).recommendations = fallbackRecs ∧
    (parseResponse (pys "一般文字") [] []).recommendations ≠ [] :=
  ⟨(c3_fallback_list (pys "一般文字") [] []).1 (by decide),
   (c3_fallback_list (pys "一般文字") [] []).2⟩

/-- C4: the interpreter is a total function returning a well-formed record
echoing its inputs, and on the empty string the diagnosis is the generic
placeholder 分析完成 and the recommendations are the 3-item fallback list. -/
theorem c4_total_and_empty_input (q lang : PyStr) :
    (∀ resp, (parseResponse resp q lang).raw_response = resp ∧
      (parseResponse resp q lang).query = q) ∧
    (parseResponse [] q lang).diagnosis = pys "分析完成" ∧
    (parseResponse [] q lang).recommendations = fallbackRecs := by
  refine ⟨fun _ => ⟨rfl, rfl⟩, ?_, ?_⟩ <;> · simp only [parseResponse]; decide

/-- C5 counterexample: on the three-line numbered input, the recommendations
are not the three claimed entries — 定期灌溉 and 無需用藥 are only 4 characters
after stripping, below the more-than-5-characters threshold of line 57, so
they are discarded and only 健康狀況良好 survives. -/
theorem c5_counterexample :
    ¬ ((parseResponse (pys "1. 健康狀況良好\n2. 定期灌溉\n3. 無需用藥")
          [] (pys "zh")).recommendations
        = [pys "健康狀況良好", pys "定期灌溉", pys "無需用藥"]) := by decide

/-- C5 amended: on the input "1. 健康狀況良好\n2. 定期灌溉\n3. 無需用藥" the
diagnosis is healthy (the text contains 良好), and the recommendations equal
the single entry 健康狀況良好 (6 characters, passing the threshold), the other
two lines being discarded as 4-character candidates. -/
theorem c5_three_line_scenario (q lang : PyStr) :
    (parseResponse (pys "1. 健康狀況良好\n2. 定期灌溉\n3. 無需用藥")
        q lang).diagnosis = pys "作物健康狀況良好" ∧
    (parseResponse (pys "1. 健康狀況良好\n2. 定期灌溉\n3. 無需用藥")
        q lang).recommendations = [pys "健康狀況良好"] := by
  refine ⟨?_, ?_⟩ <;> · simp only [parseResponse]; decide

/-- C6 counterexample: the line 4. 確保適當的澆水時間 is already trimmed, starts
with the numbered marker 4., and its stripped form exceeds 5 characters, yet
the extraction collects nothing: line 55 only tests the prefixes 1., 2., 3.,
a dash and a bullet, so lines numbered 4 and beyond are never candidates. -/
theorem c6_counterexample :
    pyStrip (pys "4. 確保適當的澆水時間") = pys "4. 確保適當的澆水時間" ∧
    5 < (cleanRec (pys "4. 確保適當的澆水時間")).length ∧
    extractRecs (pys "4. 確保適當的澆水時間") = [] := by decide

/-- Spec-side extraction, written from the amended claim's words: walk the
lines of the raw text in order; a line whose trimmed form starts with one of
exactly 1., 2., 3., a dash or a bullet — and no other numbered marker — is a
candidate; strip its leading marker characters and surrounding whitespace,
keep it only when at least 6 characters remain, preserving source order. -/
def specCollect : List PyStr → List PyStr
  | [] => []
  | rawLine :: rest =>
    let line := pyStrip rawLine
    if List.isPrefixOf (pys "1.") line || List.isPrefixOf (pys "2.") line ||
        List.isPrefixOf (pys "3.") line || List.isPrefixOf (pys "-") line ||
        List.isPrefixOf (pys "•") line then
      let c := cleanRec line
      if 6 ≤ c.length then c :: specCollect rest else specCollect rest
    else specCollect rest

/-- Spec-side counterpart of `extractRecs`, per the amended claim. -/
def specExtract (response : PyStr) : List PyStr :=
  specCollect (splitLines response)

/-- C6 amended: the candidate markers are exactly 1., 2., 3., a dash and a
bullet — later numbers such as 4. or 5. are not markers; for every line whose
trimmed form starts with one of these, the marker is stripped, the candidate
is discarded when shorter than 6 characters and otherwise collected in source
order: the source extraction coincides with the spec-side description. -/
theorem c6_extraction_refinement (resp : PyStr) :
    extractRecs resp = specExtract resp := by
  unfold extractRecs specExtract
  induction splitLines resp with
  | nil => rfl
  | cons a t ih =>
    simp only [List.filterMap_cons, specCollect, lineCandidate, markers,
      List.any_cons, List.any_nil, Bool.or_false, Bool.or_assoc,
      Nat.lt_iff_add_one_le, Nat.reduceAdd]
    by_cases hm : (List.isPrefixOf (pys "1.") (pyStrip a) ||
        (List.isPrefixOf (pys "2.") (pyStrip a) ||
          (List.isPrefixOf (pys "3.") (pyStrip a) ||
            (List.isPrefixOf (pys "-") (pyStrip a) ||
              List.isPrefixOf (pys "•") (pyStrip a))))) = true
    · by_cases hl : 6 ≤ (cleanRec (pyStrip a)).length
      · simp [hm, hl, ih]
      · simp [hm, hl, ih]
    · simp [hm, ih]

/-- C7: the interpreter is deterministic, a pure function of its three
arguments: two calls with identical inputs return identical records. -/
theorem c7_deterministic (r q l r' q' l' : PyStr)
    (h : (r, q, l) = (r', q', l')) :
    parseResponse r q l = parseResponse r' q' l' := by
  cases h
  rfl

/-- Witness for C7 at concrete equal inputs. -/
theorem c7_deterministic_witness :
    parseResponse (pys "健康") (pys "q") (pys "zh")
      = parseResponse (pys "健康") (pys "q") (pys "zh") :=
  c7_deterministic (pys "健康") (pys "q") (pys "zh")
    (pys "健康") (pys "q") (pys "zh") rfl

/-- C8: `analyze_crop_image` never raises to its caller: when the gateway
invocation fails for any reason, it returns a null result paired with the
human-readable message Gemini分析失敗 followed by the exception text; on
success it returns the parsed record paired with the success message 分析成功. -/
theorem c8_failure_signal (outcome : GatewayOutcome) (q lang : PyStr) :
    (∀ e, outcome = .error e →
      analyzeCropImage outcome q lang = (none, pys "Gemini分析失敗: " ++ e)) ∧
    (∀ resp, outcome = .ok resp →
      analyzeCropImage outcome q lang =
        (some (parseResponse resp q lang), pys "分析成功")) := by
  constructor <;> rintro x rfl <;> rfl

/-- Witness for C8: a concrete failing outcome and a concrete succeeding one. -/
theorem c8_failure_signal_witness :
    analyzeCropImage (.error (pys "network down")) [] []
      = (none, pys "Gemini分析失敗: " ++ pys "network down") ∧
    analyzeCropImage (.ok (pys "健康")) [] []
      = (some (parseResponse (pys "健康") [] []), pys "分析成功") :=
  ⟨(c8_failure_signal (.error (pys "network down")) [] []).1 _ rfl,
   (c8_failure_signal (.ok (pys "健康")) [] []).2 _ rfl⟩

/-- C9: the language field of every returned record is the constant zh, and
the language argument has no effect on any field of the result. -/
theorem c9_language_constant (resp q lang lang' : PyStr) :
    (parseResponse resp q lang).language = pys "zh" ∧
    parseResponse resp q lang = parseResponse resp q lang' :=
  ⟨rfl, rfl⟩

/-- Helper for C10: the characters removed by `dropWhile` all satisfy the
predicate (they form the matched leading run). -/
theorem takeWhile_all_sat (p : Char → Bool) (l : PyStr) :
    (l.takeWhile p).all p = true := by
  induction l with
  | nil => rfl
  | cons a t ih =>
    by_cases h : p a = true <;> simp [List.takeWhile_cons, h, ih]

/-- Helper for C10: the first remaining character after `dropWhile`, when one
exists, fails the predicate (the removed run is maximal). -/
theorem dropWhile_head_fails (p : Char → Bool) (l : PyStr) :
    ((l.dropWhile p).take 1).all (fun c => !p c) = true := by
  induction l with
  | nil => rfl
  | cons a t ih =>
    by_cases h : p a = true
    · simpa [List.dropWhile_cons, h] using ih
    · simp [List.dropWhile_cons, h]

/-- C10: cleaning a candidate line removes the maximal leading run of
characters from the set 1–9, dot, dash, bullet, space and then trims
whitespace: the removed prefix consists only of set characters, the first
surviving character is outside the set, and what remains is the whitespace
trim of the remainder; concretely, - 3月施肥 cleans to 月施肥 (the content
digit 3 is also eaten), while a line starting 10. keeps its 0. because 0 is
not in the strip set. -/
theorem c10_marker_stripping :
    (∀ line : PyStr,
      cleanRec line =
        pyStrip (line.dropWhile (fun c => stripSet.contains c)) ∧
      line.takeWhile (fun c => stripSet.contains c) ++
        line.dropWhile (fun c => stripSet.contains c) = line ∧
      (line.takeWhile (fun c => stripSet.contains c)).all
        (fun c => stripSet.contains c) = true ∧
      ((line.dropWhile (fun c => stripSet.contains c)).take 1).all
        (fun c => !stripSet.contains c) = true) ∧
    cleanRec (pys "- 3月施肥") = pys "月施肥" ∧
    cleanRec (pys "10. 施肥計劃安排") = pys "0. 施肥計劃安排" ∧
    stripSet.contains '0' = false :=
  ⟨fun line =>
    ⟨rfl,
     List.takeWhile_append_dropWhile _ _,
     takeWhile_all_sat _ line,
     dropWhile_head_fails _ line⟩,
   by decide, by decide, by decide⟩

end Osiris
